import Mathlib

/-!
Verification of the payments-engine core (`src/account.rs`, `src/engine.rs`,
`src/transaction.rs`, `src/error.rs`) against its specification.

The `rust_decimal::Decimal` type (96-bit integer mantissa with a decimal
scale) is modelled as an exact rational number together with the magnitude
bound `Dmax = 2^96 - 1` (the value of `Decimal::MAX`): `checked_add` /
`checked_sub` return the exact result when its magnitude stays within the
bound and `none` (overflow/underflow) otherwise, matching the spec's
description of the arithmetic as a fixed-precision decimal whose checked
operations fail explicitly rather than wrap or saturate.
`HashMap` is modelled as a function to `Option`, with insertion as pointwise
update; account ids (`u16`) and transaction ids (`u32`) are modelled as
`Nat`, since the code only ever compares them for equality.
-/

namespace Payments

/-- Rust `rust_decimal::Decimal`, modelled as an exact rational. -/
abbrev Decimal := ℚ

/-- The magnitude of `Decimal::MAX`, i.e. `2^96 - 1`. -/
def Dmax : ℚ := 79228162514264337593543950335

/-- Rust `Decimal::checked_add`: the exact sum when representable, else `none`. -/
def checked_add (a b : Decimal) : Option Decimal :=
  if -Dmax ≤ a + b ∧ a + b ≤ Dmax then some (a + b) else none

/-- Rust `Decimal::checked_sub`: the exact difference when representable, else `none`. -/
def checked_sub (a b : Decimal) : Option Decimal :=
  if -Dmax ≤ a - b ∧ a - b ≤ Dmax then some (a - b) else none

/-- Rust `Decimal::is_sign_negative`. -/
def is_sign_negative (d : Decimal) : Bool := d < 0

/-- The error type of `src/error.rs` (the two variants the core produces;
the `Csv`/`Io` variants belong to the excluded I/O adapter). -/
inductive Error where
  | AccountError (msg : String)
  | TransactionError (msg : String)
deriving DecidableEq

def lockedMsg : String :=
  "Account is locked. All transactions are currently unavailable."

def negAmountMsg : String :=
  "Deposit/withdrawal amounts must be greater than zero."

def insufficientWithdrawalMsg : String :=
  "Insufficient funds to complete withdrawal transaction."

def insufficientDisputeMsg : String :=
  "Insufficient funds to complete dispute transaction."

def insufficientResolveMsg : String :=
  "Insufficient funds to complete resolve transaction."

def insufficientChargebackMsg : String :=
  "Insufficient funds to complete chargeback transaction."

def depositOverflowMsg : String :=
  "Overflow Error: invalid deposit tx amount."

def withdrawalUnderflowMsg : String :=
  "Underflow Error: invalid withdrawal tx amount."

def disputeUnderflowMsg : String :=
  "Underflow Error: invalid dispute tx amount."

def disputeOverflowMsg : String :=
  "Overflow Error: invalid dispute tx amount."

def resolveUnderflowMsg : String :=
  "Underflow Error: invalid resolve tx amount."

def resolveOverflowMsg : String :=
  "Overflow Error: invalid resolve tx amount."

def chargebackUnderflowMsg : String :=
  "Underflow Error: invalid chargeback tx amount."

def ownerMismatchMsg : String :=
  "Transaction account ID does not match account."

def invalidAmountMsg : String :=
  "Invalid transaction amount."

/-- The `Account` struct of `src/account.rs`. -/
structure Account where
  id : Nat
  available : Decimal
  held : Decimal
  total : Decimal
  locked : Bool
deriving DecidableEq

/-- Rust `Account::new`. -/
def Account.new (id : Nat) : Account :=
  { id := id, available := 0, held := 0, total := 0, locked := false }

/-- Rust `Account::check_lock`. -/
def Account.check_lock (self : Account) : Except Error Unit :=
  if self.locked then Except.error (Error.AccountError lockedMsg)
  else Except.ok ()

/-- Rust `Account::check_negative_amount` (associated function). -/
def Account.check_negative_amount (amount : Decimal) : Except Error Unit :=
  if is_sign_negative amount then Except.error (Error.TransactionError negAmountMsg)
  else Except.ok ()

/-- Rust `Account::validate_deposit_amount`. -/
def Account.validate_deposit_amount (_self : Account) (amount : Decimal) :
    Except Error Unit :=
  Account.check_negative_amount amount

/-- Rust `Account::validate_withdrawal_amount`. -/
def Account.validate_withdrawal_amount (self : Account) (amount : Decimal) :
    Except Error Unit :=
  match Account.check_negative_amount amount with
  | Except.error e => Except.error e
  | Except.ok _ =>
    if self.available < amount ∨ self.total < amount then
      Except.error (Error.AccountError insufficientWithdrawalMsg)
    else Except.ok ()

/-- Rust `Account::validate_dispute_amount`. -/
def Account.validate_dispute_amount (self : Account) (amount : Decimal) :
    Except Error Unit :=
  if self.available < amount then
    Except.error (Error.AccountError insufficientDisputeMsg)
  else Except.ok ()

/-- Rust `Account::validate_resolve_amount`. -/
def Account.validate_resolve_amount (self : Account) (amount : Decimal) :
    Except Error Unit :=
  if self.held < amount then
    Except.error (Error.AccountError insufficientResolveMsg)
  else Except.ok ()

/-- Rust `Account::validate_chargeback_amount`. -/
def Account.validate_chargeback_amount (self : Account) (amount : Decimal) :
    Except Error Unit :=
  if self.held < amount ∨ self.total < amount then
    Except.error (Error.AccountError insufficientChargebackMsg)
  else Except.ok ()

/-- Rust `Account::validate_tx_account_id`. -/
def Account.validate_tx_account_id (self : Account) (tx_account_id : Nat) :
    Except Error Unit :=
  if self.id ≠ tx_account_id then
    Except.error (Error.TransactionError ownerMismatchMsg)
  else Except.ok ()

/-- Rust `Account::deposit`.  `&mut self` is modelled by returning the account
alongside the result; the source assigns the fields only after both
checked additions succeed, which is mirrored here. -/
def Account.deposit (self : Account) (amount : Decimal) :
    Except Error Unit × Account :=
  match self.check_lock with
  | Except.error e => (Except.error e, self)
  | Except.ok _ =>
    match self.validate_deposit_amount amount with
    | Except.error e => (Except.error e, self)
    | Except.ok _ =>
      match checked_add self.available amount with
      | none => (Except.error (Error.TransactionError depositOverflowMsg), self)
      | some new_available =>
        match checked_add self.total amount with
        | none => (Except.error (Error.TransactionError depositOverflowMsg), self)
        | some new_total =>
          (Except.ok (), { self with available := new_available, total := new_total })

/-- Rust `Account::withdrawal`. -/
def Account.withdrawal (self : Account) (amount : Decimal) :
    Except Error Unit × Account :=
  match self.check_lock with
  | Except.error e => (Except.error e, self)
  | Except.ok _ =>
    match self.validate_withdrawal_amount amount with
    | Except.error e => (Except.error e, self)
    | Except.ok _ =>
      match checked_sub self.available amount with
      | none => (Except.error (Error.TransactionError withdrawalUnderflowMsg), self)
      | some new_available =>
        match checked_sub self.total amount with
        | none => (Except.error (Error.TransactionError withdrawalUnderflowMsg), self)
        | some new_total =>
          (Except.ok (), { self with available := new_available, total := new_total })

/-- Rust `Account::dispute`. -/
def Account.dispute (self : Account) (amount : Decimal) :
    Except Error Unit × Account :=
  match self.check_lock with
  | Except.error e => (Except.error e, self)
  | Except.ok _ =>
    match self.validate_dispute_amount amount with
    | Except.error e => (Except.error e, self)
    | Except.ok _ =>
      match checked_sub self.available amount with
      | none => (Except.error (Error.TransactionError disputeUnderflowMsg), self)
      | some new_available =>
        match checked_add self.held amount with
        | none => (Except.error (Error.TransactionError disputeOverflowMsg), self)
        | some new_held =>
          (Except.ok (), { self with available := new_available, held := new_held })

/-- Rust `Account::resolve`. -/
def Account.resolve (self : Account) (amount : Decimal) :
    Except Error Unit × Account :=
  match self.check_lock with
  | Except.error e => (Except.error e, self)
  | Except.ok _ =>
    match self.validate_resolve_amount amount with
    | Except.error e => (Except.error e, self)
    | Except.ok _ =>
      match checked_sub self.held amount with
      | none => (Except.error (Error.TransactionError resolveUnderflowMsg), self)
      | some new_held =>
        match checked_add self.available amount with
        | none => (Except.error (Error.TransactionError resolveOverflowMsg), self)
        | some new_available =>
          (Except.ok (), { self with held := new_held, available := new_available })

/-- Rust `Account::chargeback`: on success the account is locked. -/
def Account.chargeback (self : Account) (amount : Decimal) :
    Except Error Unit × Account :=
  match self.check_lock with
  | Except.error e => (Except.error e, self)
  | Except.ok _ =>
    match self.validate_chargeback_amount amount with
    | Except.error e => (Except.error e, self)
    | Except.ok _ =>
      match checked_sub self.held amount with
      | none => (Except.error (Error.TransactionError chargebackUnderflowMsg), self)
      | some new_held =>
        match checked_sub self.total amount with
        | none => (Except.error (Error.TransactionError chargebackUnderflowMsg), self)
        | some new_total =>
          (Except.ok (),
            { self with held := new_held, total := new_total, locked := true })

/-- Rust `TransactionType` of `src/transaction.rs`. -/
inductive TransactionType where
  | Chargeback
  | Deposit
  | Dispute
  | Resolve
  | Withdrawal
deriving DecidableEq

/-- The inbound `Transaction` of `src/transaction.rs`.  `amount` is
`Option` because the CSV column is absent for dispute-type rows. -/
structure Transaction where
  tx_type : TransactionType
  account_id : Nat
  tx_id : Nat
  amount : Option Decimal
deriving DecidableEq

/-- The stored `TxRecord` of `src/transaction.rs`. -/
structure TxRecord where
  tx_type : TransactionType
  account_id : Nat
  amount : Decimal
deriving DecidableEq

/-- Rust `TryFrom<&Transaction> for TxRecord`: fails when `amount` is absent. -/
def TxRecord.tryFrom (tx : Transaction) : Except Error TxRecord :=
  match tx.amount with
  | none => Except.error (Error.TransactionError invalidAmountMsg)
  | some a => Except.ok { tx_type := tx.tx_type, account_id := tx.account_id, amount := a }

/-- Insertion into a map modelled as a function to `Option`
(`HashMap::insert`, and the write-back of `HashMap::entry().or_insert()`). -/
def upd {α : Type} (f : Nat → Option α) (k : Nat) (v : α) : Nat → Option α :=
  fun c => if c = k then some v else f c

/-- The `PaymentsEngine` struct of `src/engine.rs`: both `HashMap`s are
modelled as functions to `Option`. -/
structure PaymentsEngine where
  accounts : Nat → Option Account
  transactions : Nat → Option TxRecord

/-- Rust `PaymentsEngine::new`. -/
def PaymentsEngine.new : PaymentsEngine :=
  { accounts := fun _ => none, transactions := fun _ => none }

/-- Rust `PaymentsEngine::process_deposit`.  Note the source order: the account
is created by `entry().or_insert()` before the record conversion and the
account operation, so the creation persists even when either fails; the
record is inserted only after the account operation succeeds. -/
def PaymentsEngine.process_deposit (s : PaymentsEngine) (tx : Transaction) :
    Except Error Unit × PaymentsEngine :=
  match TxRecord.tryFrom tx with
  | Except.error e =>
    (Except.error e, { s with accounts := upd s.accounts tx.account_id ((s.accounts tx.account_id).getD (Account.new tx.account_id)) })
  | Except.ok tx_info =>
    match ((s.accounts tx.account_id).getD (Account.new tx.account_id)).deposit
        tx_info.amount with
    | (Except.error e, account₂) =>
      (Except.error e, { s with accounts := upd s.accounts tx.account_id account₂ })
    | (Except.ok _, account₂) =>
      (Except.ok (),
        { accounts := upd s.accounts tx.account_id account₂,
          transactions := upd s.transactions tx.tx_id tx_info })

/-- Rust `PaymentsEngine::process_withdrawal`. -/
def PaymentsEngine.process_withdrawal (s : PaymentsEngine) (tx : Transaction) :
    Except Error Unit × PaymentsEngine :=
  match TxRecord.tryFrom tx with
  | Except.error e =>
    (Except.error e, { s with accounts := upd s.accounts tx.account_id ((s.accounts tx.account_id).getD (Account.new tx.account_id)) })
  | Except.ok tx_info =>
    match ((s.accounts tx.account_id).getD (Account.new tx.account_id)).withdrawal
        tx_info.amount with
    | (Except.error e, account₂) =>
      (Except.error e, { s with accounts := upd s.accounts tx.account_id account₂ })
    | (Except.ok _, account₂) =>
      (Except.ok (),
        { accounts := upd s.accounts tx.account_id account₂,
          transactions := upd s.transactions tx.tx_id tx_info })

/-- Rust `PaymentsEngine::process_dispute`: the account is fetched-or-created
first, then the record is looked up; a missing record is silently ignored. -/
def PaymentsEngine.process_dispute (s : PaymentsEngine) (tx : Transaction) :
    Except Error Unit × PaymentsEngine :=
  match s.transactions tx.tx_id with
  | none =>
    (Except.ok (), { s with accounts := upd s.accounts tx.account_id ((s.accounts tx.account_id).getD (Account.new tx.account_id)) })
  | some tx_info =>
    match ((s.accounts tx.account_id).getD
        (Account.new tx.account_id)).validate_tx_account_id tx_info.account_id with
    | Except.error e =>
      (Except.error e, { s with accounts := upd s.accounts tx.account_id ((s.accounts tx.account_id).getD (Account.new tx.account_id)) })
    | Except.ok _ =>
      match ((s.accounts tx.account_id).getD (Account.new tx.account_id)).dispute
          tx_info.amount with
      | (res, account₂) =>
        (res, { s with accounts := upd s.accounts tx.account_id account₂ })

/-- Rust `PaymentsEngine::process_resolve`. -/
def PaymentsEngine.process_resolve (s : PaymentsEngine) (tx : Transaction) :
    Except Error Unit × PaymentsEngine :=
  match s.transactions tx.tx_id with
  | none =>
    (Except.ok (), { s with accounts := upd s.accounts tx.account_id ((s.accounts tx.account_id).getD (Account.new tx.account_id)) })
  | some tx_info =>
    match ((s.accounts tx.account_id).getD
        (Account.new tx.account_id)).validate_tx_account_id tx_info.account_id with
    | Except.error e =>
      (Except.error e, { s with accounts := upd s.accounts tx.account_id ((s.accounts tx.account_id).getD (Account.new tx.account_id)) })
    | Except.ok _ =>
      match ((s.accounts tx.account_id).getD (Account.new tx.account_id)).resolve
          tx_info.amount with
      | (res, account₂) =>
        (res, { s with accounts := upd s.accounts tx.account_id account₂ })

/-- Rust `PaymentsEngine::process_chargeback`. -/
def PaymentsEngine.process_chargeback (s : PaymentsEngine) (tx : Transaction) :
    Except Error Unit × PaymentsEngine :=
  match s.transactions tx.tx_id with
  | none =>
    (Except.ok (), { s with accounts := upd s.accounts tx.account_id ((s.accounts tx.account_id).getD (Account.new tx.account_id)) })
  | some tx_info =>
    match ((s.accounts tx.account_id).getD
        (Account.new tx.account_id)).validate_tx_account_id tx_info.account_id with
    | Except.error e =>
      (Except.error e, { s with accounts := upd s.accounts tx.account_id ((s.accounts tx.account_id).getD (Account.new tx.account_id)) })
    | Except.ok _ =>
      match ((s.accounts tx.account_id).getD (Account.new tx.account_id)).chargeback
          tx_info.amount with
      | (res, account₂) =>
        (res, { s with accounts := upd s.accounts tx.account_id account₂ })

/-- Rust `PaymentsEngine::process_tx`. -/
def PaymentsEngine.process_tx (s : PaymentsEngine) (tx : Transaction) :
    Except Error Unit × PaymentsEngine :=
  match tx.tx_type with
  | TransactionType.Deposit => s.process_deposit tx
  | TransactionType.Withdrawal => s.process_withdrawal tx
  | TransactionType.Dispute => s.process_dispute tx
  | TransactionType.Resolve => s.process_resolve tx
  | TransactionType.Chargeback => s.process_chargeback tx

/-- The driver loop of `src/main.rs`: transactions are applied one at a
time; a failing transaction is reported and discarded and processing
continues on the resulting state. -/
def PaymentsEngine.processAll (s : PaymentsEngine) (txs : List Transaction) :
    PaymentsEngine :=
  txs.foldl (fun st tx => (st.process_tx tx).2) s

/-! ### The single-account balance invariant -/

/-- The spec invariant set for one account: `total = available + held`,
`available ≥ 0`, `held ≥ 0`, strengthened with the representability bound
`total ≤ Dmax` (needed so that the checked arithmetic can re-establish it). -/
def Account.Valid (a : Account) : Prop :=
  a.total = a.available + a.held ∧ 0 ≤ a.available ∧ 0 ≤ a.held ∧ a.total ≤ Dmax

/-! ### Engine-level invariants -/

/-- Every stored account is keyed by its own id and satisfies the balance
invariant. -/
def AccountsInv (f : Nat → Option Account) : Prop :=
  ∀ c acct, f c = some acct → acct.id = c ∧ acct.Valid

/-- Every stored chargeable record carries a non-negative amount (it was
validated by the deposit/withdrawal that created it). -/
def RecordsInv (g : Nat → Option TxRecord) : Prop :=
  ∀ t r, g t = some r → 0 ≤ r.amount

/-- The engine invariant maintained by `process_tx`. -/
def EngineInv (s : PaymentsEngine) : Prop :=
  AccountsInv s.accounts ∧ RecordsInv s.transactions

/-! ### Equational forms of the five account operations -/

/-- Unfolding of `Account.deposit` as a decision tree, mirroring the source's guard order. -/
theorem Account.deposit_eq_ite (a : Account) (x : Decimal) :
    a.deposit x =
      if a.locked then (Except.error (Error.AccountError lockedMsg), a)
      else if x < 0 then (Except.error (Error.TransactionError negAmountMsg), a)
      else if -Dmax ≤ a.available + x ∧ a.available + x ≤ Dmax then
        if -Dmax ≤ a.total + x ∧ a.total + x ≤ Dmax then
          (Except.ok (), { a with available := a.available + x, total := a.total + x })
        else (Except.error (Error.TransactionError depositOverflowMsg), a)
      else (Except.error (Error.TransactionError depositOverflowMsg), a) := by
  unfold Account.deposit Account.check_lock Account.validate_deposit_amount
    Account.check_negative_amount checked_add
  simp only [is_sign_negative, decide_eq_true_eq]
  by_cases hl : a.locked = true
  · rw [if_pos hl, if_pos hl]
  · rw [if_neg hl, if_neg hl]
    by_cases hn : x < 0
    · rw [if_pos hn, if_pos hn]
    · rw [if_neg hn, if_neg hn]
      by_cases h1 : -Dmax ≤ a.available + x ∧ a.available + x ≤ Dmax
      · rw [if_pos h1, if_pos h1]
        by_cases h2 : -Dmax ≤ a.total + x ∧ a.total + x ≤ Dmax
        · rw [if_pos h2, if_pos h2]
        · rw [if_neg h2, if_neg h2]
      · rw [if_neg h1, if_neg h1]

/-- Unfolding of `Account.withdrawal` as a decision tree. -/
theorem Account.withdrawal_eq_ite (a : Account) (x : Decimal) :
    a.withdrawal x =
      if a.locked then (Except.error (Error.AccountError lockedMsg), a)
      else if x < 0 then (Except.error (Error.TransactionError negAmountMsg), a)
      else if a.available < x ∨ a.total < x then
        (Except.error (Error.AccountError insufficientWithdrawalMsg), a)
      else if -Dmax ≤ a.available - x ∧ a.available - x ≤ Dmax then
        if -Dmax ≤ a.total - x ∧ a.total - x ≤ Dmax then
          (Except.ok (), { a with available := a.available - x, total := a.total - x })
        else (Except.error (Error.TransactionError withdrawalUnderflowMsg), a)
      else (Except.error (Error.TransactionError withdrawalUnderflowMsg), a) := by
  unfold Account.withdrawal Account.check_lock Account.validate_withdrawal_amount
    Account.check_negative_amount checked_sub
  simp only [is_sign_negative, decide_eq_true_eq]
  by_cases hl : a.locked = true
  · rw [if_pos hl, if_pos hl]
  · rw [if_neg hl, if_neg hl]
    by_cases hn : x < 0
    · rw [if_pos hn, if_pos hn]
    · rw [if_neg hn, if_neg hn]
      by_cases hs : a.available < x ∨ a.total < x
      · rw [if_pos hs, if_pos hs]
      · rw [if_neg hs, if_neg hs]
        by_cases h1 : -Dmax ≤ a.available - x ∧ a.available - x ≤ Dmax
        · rw [if_pos h1, if_pos h1]
          by_cases h2 : -Dmax ≤ a.total - x ∧ a.total - x ≤ Dmax
          · rw [if_pos h2, if_pos h2]
          · rw [if_neg h2, if_neg h2]
        · rw [if_neg h1, if_neg h1]

/-- Unfolding of `Account.dispute` as a decision tree (note: no sign check on `x`). -/
theorem Account.dispute_eq_ite (a : Account) (x : Decimal) :
    a.dispute x =
      if a.locked then (Except.error (Error.AccountError lockedMsg), a)
      else if a.available < x then
        (Except.error (Error.AccountError insufficientDisputeMsg), a)
      else if -Dmax ≤ a.available - x ∧ a.available - x ≤ Dmax then
        if -Dmax ≤ a.held + x ∧ a.held + x ≤ Dmax then
          (Except.ok (), { a with available := a.available - x, held := a.held + x })
        else (Except.error (Error.TransactionError disputeOverflowMsg), a)
      else (Except.error (Error.TransactionError disputeUnderflowMsg), a) := by
  unfold Account.dispute Account.check_lock Account.validate_dispute_amount
    checked_sub checked_add
  by_cases hl : a.locked = true
  · rw [if_pos hl, if_pos hl]
  · rw [if_neg hl, if_neg hl]
    by_cases hs : a.available < x
    · rw [if_pos hs, if_pos hs]
    · rw [if_neg hs, if_neg hs]
      by_cases h1 : -Dmax ≤ a.available - x ∧ a.available - x ≤ Dmax
      · rw [if_pos h1, if_pos h1]
        by_cases h2 : -Dmax ≤ a.held + x ∧ a.held + x ≤ Dmax
        · rw [if_pos h2, if_pos h2]
        · rw [if_neg h2, if_neg h2]
      · rw [if_neg h1, if_neg h1]

/-- Unfolding of `Account.resolve` as a decision tree (note: no sign check on `x`). -/
theorem Account.resolve_eq_ite (a : Account) (x : Decimal) :
    a.resolve x =
      if a.locked then (Except.error (Error.AccountError lockedMsg), a)
      else if a.held < x then
        (Except.error (Error.AccountError insufficientResolveMsg), a)
      else if -Dmax ≤ a.held - x ∧ a.held - x ≤ Dmax then
        if -Dmax ≤ a.available + x ∧ a.available + x ≤ Dmax then
          (Except.ok (), { a with held := a.held - x, available := a.available + x })
        else (Except.error (Error.TransactionError resolveOverflowMsg), a)
      else (Except.error (Error.TransactionError resolveUnderflowMsg), a) := by
  unfold Account.resolve Account.check_lock Account.validate_resolve_amount
    checked_sub checked_add
  by_cases hl : a.locked = true
  · rw [if_pos hl, if_pos hl]
  · rw [if_neg hl, if_neg hl]
    by_cases hs : a.held < x
    · rw [if_pos hs, if_pos hs]
    · rw [if_neg hs, if_neg hs]
      by_cases h1 : -Dmax ≤ a.held - x ∧ a.held - x ≤ Dmax
      · rw [if_pos h1, if_pos h1]
        by_cases h2 : -Dmax ≤ a.available + x ∧ a.available + x ≤ Dmax
        · rw [if_pos h2, if_pos h2]
        · rw [if_neg h2, if_neg h2]
      · rw [if_neg h1, if_neg h1]

/-- Unfolding of `Account.chargeback` as a decision tree (note: no sign check on `x`;
on success the account becomes locked). -/
theorem Account.chargeback_eq_ite (a : Account) (x : Decimal) :
    a.chargeback x =
      if a.locked then (Except.error (Error.AccountError lockedMsg), a)
      else if a.held < x ∨ a.total < x then
        (Except.error (Error.AccountError insufficientChargebackMsg), a)
      else if -Dmax ≤ a.held - x ∧ a.held - x ≤ Dmax then
        if -Dmax ≤ a.total - x ∧ a.total - x ≤ Dmax then
          (Except.ok (), { a with held := a.held - x, total := a.total - x, locked := true })
        else (Except.error (Error.TransactionError chargebackUnderflowMsg), a)
      else (Except.error (Error.TransactionError chargebackUnderflowMsg), a) := by
  unfold Account.chargeback Account.check_lock Account.validate_chargeback_amount
    checked_sub
  by_cases hl : a.locked = true
  · rw [if_pos hl, if_pos hl]
  · rw [if_neg hl, if_neg hl]
    by_cases hs : a.held < x ∨ a.total < x
    · rw [if_pos hs, if_pos hs]
    · rw [if_neg hs, if_neg hs]
      by_cases h1 : -Dmax ≤ a.held - x ∧ a.held - x ≤ Dmax
      · rw [if_pos h1, if_pos h1]
        by_cases h2 : -Dmax ≤ a.total - x ∧ a.total - x ≤ Dmax
        · rw [if_pos h2, if_pos h2]
        · rw [if_neg h2, if_neg h2]
      · rw [if_neg h1, if_neg h1]

theorem Account.valid_new (c : Nat) : (Account.new c).Valid := by
  refine ⟨by norm_num [Account.new], by norm_num [Account.new], by norm_num [Account.new], ?_⟩
  norm_num [Account.new, Dmax]

theorem Account.deposit_id (a : Account) (x : Decimal) : ((a.deposit x).2).id = a.id := by
  rw [Account.deposit_eq_ite]
  split_ifs <;> rfl

theorem Account.withdrawal_id (a : Account) (x : Decimal) : ((a.withdrawal x).2).id = a.id := by
  rw [Account.withdrawal_eq_ite]
  split_ifs <;> rfl

theorem Account.dispute_id (a : Account) (x : Decimal) : ((a.dispute x).2).id = a.id := by
  rw [Account.dispute_eq_ite]
  split_ifs <;> rfl

theorem Account.resolve_id (a : Account) (x : Decimal) : ((a.resolve x).2).id = a.id := by
  rw [Account.resolve_eq_ite]
  split_ifs <;> rfl

theorem Account.chargeback_id (a : Account) (x : Decimal) : ((a.chargeback x).2).id = a.id := by
  rw [Account.chargeback_eq_ite]
  split_ifs <;> rfl

theorem Account.deposit_valid (a : Account) (x : Decimal) (h : a.Valid) :
    ((a.deposit x).2).Valid := by
  obtain ⟨ht, hav, hh, hd⟩ := h
  rw [Account.deposit_eq_ite]
  split_ifs with h1 h2 h3 h4
  · exact ⟨ht, hav, hh, hd⟩
  · exact ⟨ht, hav, hh, hd⟩
  · push_neg at h2
    exact ⟨by simp only; linarith, by simp only; linarith, hh, h4.2⟩
  · exact ⟨ht, hav, hh, hd⟩
  · exact ⟨ht, hav, hh, hd⟩

theorem Account.withdrawal_valid (a : Account) (x : Decimal) (h : a.Valid) :
    ((a.withdrawal x).2).Valid := by
  obtain ⟨ht, hav, hh, hd⟩ := h
  rw [Account.withdrawal_eq_ite]
  split_ifs with h1 h2 h3 h4 h5
  · exact ⟨ht, hav, hh, hd⟩
  · exact ⟨ht, hav, hh, hd⟩
  · exact ⟨ht, hav, hh, hd⟩
  · push_neg at h2 h3
    exact ⟨by simp only; linarith, by simp only; linarith [h3.1], hh, by simp only; linarith⟩
  · exact ⟨ht, hav, hh, hd⟩
  · exact ⟨ht, hav, hh, hd⟩

theorem Account.dispute_valid (a : Account) (x : Decimal) (h : a.Valid) (hx : 0 ≤ x) :
    ((a.dispute x).2).Valid := by
  obtain ⟨ht, hav, hh, hd⟩ := h
  rw [Account.dispute_eq_ite]
  split_ifs with h1 h2 h3 h4
  · exact ⟨ht, hav, hh, hd⟩
  · exact ⟨ht, hav, hh, hd⟩
  · push_neg at h2
    exact ⟨by simp only; linarith, by simp only; linarith, by simp only; linarith, hd⟩
  · exact ⟨ht, hav, hh, hd⟩
  · exact ⟨ht, hav, hh, hd⟩

theorem Account.resolve_valid (a : Account) (x : Decimal) (h : a.Valid) (hx : 0 ≤ x) :
    ((a.resolve x).2).Valid := by
  obtain ⟨ht, hav, hh, hd⟩ := h
  rw [Account.resolve_eq_ite]
  split_ifs with h1 h2 h3 h4
  · exact ⟨ht, hav, hh, hd⟩
  · exact ⟨ht, hav, hh, hd⟩
  · push_neg at h2
    exact ⟨by simp only; linarith, by simp only; linarith, by simp only; linarith, hd⟩
  · exact ⟨ht, hav, hh, hd⟩
  · exact ⟨ht, hav, hh, hd⟩

theorem Account.chargeback_valid (a : Account) (x : Decimal) (h : a.Valid) (hx : 0 ≤ x) :
    ((a.chargeback x).2).Valid := by
  obtain ⟨ht, hav, hh, hd⟩ := h
  rw [Account.chargeback_eq_ite]
  split_ifs with h1 h2 h3 h4
  · exact ⟨ht, hav, hh, hd⟩
  · exact ⟨ht, hav, hh, hd⟩
  · push_neg at h2
    exact ⟨by simp only; linarith, hav, by simp only; linarith [h2.1], by simp only; linarith⟩
  · exact ⟨ht, hav, hh, hd⟩
  · exact ⟨ht, hav, hh, hd⟩

/-- A successful deposit implies the amount passed the negativity check. -/
theorem Account.deposit_ok_nonneg (a : Account) (x : Decimal)
    (h : (a.deposit x).1 = Except.ok ()) : 0 ≤ x := by
  rw [Account.deposit_eq_ite] at h
  split_ifs at h with h1 h2 h3 h4
  · exact le_of_not_lt h2

/-- A successful withdrawal implies the amount passed the negativity check. -/
theorem Account.withdrawal_ok_nonneg (a : Account) (x : Decimal)
    (h : (a.withdrawal x).1 = Except.ok ()) : 0 ≤ x := by
  rw [Account.withdrawal_eq_ite] at h
  split_ifs at h with h1 h2 h3 h4 h5
  · exact le_of_not_lt h2

theorem upd_apply {α : Type} (f : Nat → Option α) (k : Nat) (v : α) (c : Nat) :
    upd f k v c = if c = k then some v else f c := rfl

theorem AccountsInv.upd_account {f : Nat → Option Account} (hf : AccountsInv f)
    {cid : Nat} {b : Account} (hid : b.id = cid) (hb : b.Valid) :
    AccountsInv (upd f cid b) := by
  intro c acct h
  rw [upd_apply] at h
  by_cases hc : c = cid
  · rw [if_pos hc] at h
    cases h
    exact ⟨hc ▸ hid, hb⟩
  · rw [if_neg hc] at h
    exact hf c acct h

theorem RecordsInv.upd_record {g : Nat → Option TxRecord} (hg : RecordsInv g)
    {tid : Nat} {r : TxRecord} (hr : 0 ≤ r.amount) :
    RecordsInv (upd g tid r) := by
  intro t rec h
  rw [upd_apply] at h
  by_cases ht : t = tid
  · rw [if_pos ht] at h
    cases h
    exact hr
  · rw [if_neg ht] at h
    exact hg t rec h

/-- The account produced by `entry().or_insert(Account::new(id))` is keyed
correctly and valid. -/
theorem fetch_or_create_spec {f : Nat → Option Account} (hf : AccountsInv f) (cid : Nat) :
    ((f cid).getD (Account.new cid)).id = cid ∧ ((f cid).getD (Account.new cid)).Valid := by
  cases h : f cid with
  | none => exact ⟨rfl, Account.valid_new cid⟩
  | some acct => exact (hf cid acct h)

theorem process_deposit_inv (s : PaymentsEngine) (tx : Transaction) (hs : EngineInv s) :
    EngineInv (s.process_deposit tx).2 := by
  obtain ⟨ha, hr⟩ := hs
  obtain ⟨hid, hv⟩ := fetch_or_create_spec ha tx.account_id
  unfold PaymentsEngine.process_deposit
  split
  · exact ⟨ha.upd_account hid hv, hr⟩
  · rename_i tx_info heq₁
    split
    · rename_i e account₂ heq₂
      have hid₂ : account₂.id = tx.account_id := by
        have h := Account.deposit_id ((s.accounts tx.account_id).getD
          (Account.new tx.account_id)) tx_info.amount
        rw [heq₂] at h
        exact h.trans hid
      have hv₂ : account₂.Valid := by
        have h := Account.deposit_valid ((s.accounts tx.account_id).getD
          (Account.new tx.account_id)) tx_info.amount hv
        rw [heq₂] at h
        exact h
      exact ⟨ha.upd_account hid₂ hv₂, hr⟩
    · rename_i u account₂ heq₂
      have hid₂ : account₂.id = tx.account_id := by
        have h := Account.deposit_id ((s.accounts tx.account_id).getD
          (Account.new tx.account_id)) tx_info.amount
        rw [heq₂] at h
        exact h.trans hid
      have hv₂ : account₂.Valid := by
        have h := Account.deposit_valid ((s.accounts tx.account_id).getD
          (Account.new tx.account_id)) tx_info.amount hv
        rw [heq₂] at h
        exact h
      have hnn : (0 : ℚ) ≤ tx_info.amount := by
        apply Account.deposit_ok_nonneg ((s.accounts tx.account_id).getD
          (Account.new tx.account_id)) tx_info.amount
        rw [heq₂]
      exact ⟨ha.upd_account hid₂ hv₂, hr.upd_record hnn⟩

theorem process_withdrawal_inv (s : PaymentsEngine) (tx : Transaction) (hs : EngineInv s) :
    EngineInv (s.process_withdrawal tx).2 := by
  obtain ⟨ha, hr⟩ := hs
  obtain ⟨hid, hv⟩ := fetch_or_create_spec ha tx.account_id
  unfold PaymentsEngine.process_withdrawal
  split
  · exact ⟨ha.upd_account hid hv, hr⟩
  · rename_i tx_info heq₁
    split
    · rename_i e account₂ heq₂
      have hid₂ : account₂.id = tx.account_id := by
        have h := Account.withdrawal_id ((s.accounts tx.account_id).getD
          (Account.new tx.account_id)) tx_info.amount
        rw [heq₂] at h
        exact h.trans hid
      have hv₂ : account₂.Valid := by
        have h := Account.withdrawal_valid ((s.accounts tx.account_id).getD
          (Account.new tx.account_id)) tx_info.amount hv
        rw [heq₂] at h
        exact h
      exact ⟨ha.upd_account hid₂ hv₂, hr⟩
    · rename_i u account₂ heq₂
      have hid₂ : account₂.id = tx.account_id := by
        have h := Account.withdrawal_id ((s.accounts tx.account_id).getD
          (Account.new tx.account_id)) tx_info.amount
        rw [heq₂] at h
        exact h.trans hid
      have hv₂ : account₂.Valid := by
        have h := Account.withdrawal_valid ((s.accounts tx.account_id).getD
          (Account.new tx.account_id)) tx_info.amount hv
        rw [heq₂] at h
        exact h
      have hnn : (0 : ℚ) ≤ tx_info.amount := by
        apply Account.withdrawal_ok_nonneg ((s.accounts tx.account_id).getD
          (Account.new tx.account_id)) tx_info.amount
        rw [heq₂]
      exact ⟨ha.upd_account hid₂ hv₂, hr.upd_record hnn⟩

theorem process_dispute_inv (s : PaymentsEngine) (tx : Transaction) (hs : EngineInv s) :
    EngineInv (s.process_dispute tx).2 := by
  obtain ⟨ha, hr⟩ := hs
  obtain ⟨hid, hv⟩ := fetch_or_create_spec ha tx.account_id
  unfold PaymentsEngine.process_dispute
  split
  · exact ⟨ha.upd_account hid hv, hr⟩
  · rename_i tx_info heq₁
    split
    · exact ⟨ha.upd_account hid hv, hr⟩
    · rename_i u heq₂
      have hnn : (0 : ℚ) ≤ tx_info.amount := hr tx.tx_id tx_info heq₁
      rcases hop : ((s.accounts tx.account_id).getD (Account.new tx.account_id)).dispute
          tx_info.amount with ⟨res, account₂⟩
      have hid₂ : account₂.id = tx.account_id := by
        have h := Account.dispute_id ((s.accounts tx.account_id).getD
          (Account.new tx.account_id)) tx_info.amount
        rw [hop] at h
        exact h.trans hid
      have hv₂ : account₂.Valid := by
        have h := Account.dispute_valid ((s.accounts tx.account_id).getD
          (Account.new tx.account_id)) tx_info.amount hv hnn
        rw [hop] at h
        exact h
      exact ⟨ha.upd_account hid₂ hv₂, hr⟩

theorem process_resolve_inv (s : PaymentsEngine) (tx : Transaction) (hs : EngineInv s) :
    EngineInv (s.process_resolve tx).2 := by
  obtain ⟨ha, hr⟩ := hs
  obtain ⟨hid, hv⟩ := fetch_or_create_spec ha tx.account_id
  unfold PaymentsEngine.process_resolve
  split
  · exact ⟨ha.upd_account hid hv, hr⟩
  · rename_i tx_info heq₁
    split
    · exact ⟨ha.upd_account hid hv, hr⟩
    · rename_i u heq₂
      have hnn : (0 : ℚ) ≤ tx_info.amount := hr tx.tx_id tx_info heq₁
      rcases hop : ((s.accounts tx.account_id).getD (Account.new tx.account_id)).resolve
          tx_info.amount with ⟨res, account₂⟩
      have hid₂ : account₂.id = tx.account_id := by
        have h := Account.resolve_id ((s.accounts tx.account_id).getD
          (Account.new tx.account_id)) tx_info.amount
        rw [hop] at h
        exact h.trans hid
      have hv₂ : account₂.Valid := by
        have h := Account.resolve_valid ((s.accounts tx.account_id).getD
          (Account.new tx.account_id)) tx_info.amount hv hnn
        rw [hop] at h
        exact h
      exact ⟨ha.upd_account hid₂ hv₂, hr⟩

theorem process_chargeback_inv (s : PaymentsEngine) (tx : Transaction) (hs : EngineInv s) :
    EngineInv (s.process_chargeback tx).2 := by
  obtain ⟨ha, hr⟩ := hs
  obtain ⟨hid, hv⟩ := fetch_or_create_spec ha tx.account_id
  unfold PaymentsEngine.process_chargeback
  split
  · exact ⟨ha.upd_account hid hv, hr⟩
  · rename_i tx_info heq₁
    split
    · exact ⟨ha.upd_account hid hv, hr⟩
    · rename_i u heq₂
      have hnn : (0 : ℚ) ≤ tx_info.amount := hr tx.tx_id tx_info heq₁
      rcases hop : ((s.accounts tx.account_id).getD (Account.new tx.account_id)).chargeback
          tx_info.amount with ⟨res, account₂⟩
      have hid₂ : account₂.id = tx.account_id := by
        have h := Account.chargeback_id ((s.accounts tx.account_id).getD
          (Account.new tx.account_id)) tx_info.amount
        rw [hop] at h
        exact h.trans hid
      have hv₂ : account₂.Valid := by
        have h := Account.chargeback_valid ((s.accounts tx.account_id).getD
          (Account.new tx.account_id)) tx_info.amount hv hnn
        rw [hop] at h
        exact h
      exact ⟨ha.upd_account hid₂ hv₂, hr⟩

/-- One engine step preserves the engine invariant. -/
theorem process_tx_inv (s : PaymentsEngine) (tx : Transaction) (hs : EngineInv s) :
    EngineInv (s.process_tx tx).2 := by
  unfold PaymentsEngine.process_tx
  cases tx.tx_type with
  | Deposit => exact process_deposit_inv s tx hs
  | Withdrawal => exact process_withdrawal_inv s tx hs
  | Dispute => exact process_dispute_inv s tx hs
  | Resolve => exact process_resolve_inv s tx hs
  | Chargeback => exact process_chargeback_inv s tx hs

/-- Any finite run from an invariant state stays invariant. -/
theorem processAll_inv (txs : List Transaction) (s : PaymentsEngine) (hs : EngineInv s) :
    EngineInv (s.processAll txs) := by
  induction txs generalizing s with
  | nil => exact hs
  | cons tx rest ih =>
    exact ih (s.process_tx tx).2 (process_tx_inv s tx hs)

theorem engineInv_new : EngineInv PaymentsEngine.new := by
  constructor
  · intro c acct h
    cases h
  · intro t r h
    cases h

/-! ### Claim theorems -/

/-- C1: for every account reachable by applying any finite sequence of
transactions via `PaymentsEngine::process_tx` to a fresh engine, the balance
invariant holds at every point: `total == available + held`,
`available ≥ 0`, and `held ≥ 0`.  (Every observable point of a run is
`processAll` of a prefix of the input, so quantifying over all transaction
lists covers all observable points.) -/
theorem claim_C1 (txs : List Transaction) (c : Nat) (acct : Account)
    (h : (PaymentsEngine.new.processAll txs).accounts c = some acct) :
    acct.total = acct.available + acct.held ∧ 0 ≤ acct.available ∧ 0 ≤ acct.held := by
  obtain ⟨ha, _⟩ := processAll_inv txs PaymentsEngine.new engineInv_new
  obtain ⟨_, hv⟩ := ha c acct h
  exact ⟨hv.1, hv.2.1, hv.2.2.1⟩

/-- C2: once `locked` is true every operation returns the `Locked` failure
and leaves the account untouched; the `locked` flag is preserved by the
four non-chargeback operations and is set (only) by a successful
chargeback, hence it is monotonic and never reset. -/
theorem claim_C2 (a : Account) (x : Decimal) :
    (a.locked = true →
      a.deposit x = (Except.error (Error.AccountError lockedMsg), a) ∧
      a.withdrawal x = (Except.error (Error.AccountError lockedMsg), a) ∧
      a.dispute x = (Except.error (Error.AccountError lockedMsg), a) ∧
      a.resolve x = (Except.error (Error.AccountError lockedMsg), a) ∧
      a.chargeback x = (Except.error (Error.AccountError lockedMsg), a)) ∧
    ((a.deposit x).2.locked = a.locked) ∧
    ((a.withdrawal x).2.locked = a.locked) ∧
    ((a.dispute x).2.locked = a.locked) ∧
    ((a.resolve x).2.locked = a.locked) ∧
    ((a.chargeback x).2.locked = true ↔
      a.locked = true ∨ (a.chargeback x).1 = Except.ok ()) := by
  refine ⟨fun hl => ⟨?_, ?_, ?_, ?_, ?_⟩, ?_, ?_, ?_, ?_, ?_⟩
  · rw [Account.deposit_eq_ite, if_pos hl]
  · rw [Account.withdrawal_eq_ite, if_pos hl]
  · rw [Account.dispute_eq_ite, if_pos hl]
  · rw [Account.resolve_eq_ite, if_pos hl]
  · rw [Account.chargeback_eq_ite, if_pos hl]
  · rw [Account.deposit_eq_ite]
    split_ifs <;> rfl
  · rw [Account.withdrawal_eq_ite]
    split_ifs <;> rfl
  · rw [Account.dispute_eq_ite]
    split_ifs <;> rfl
  · rw [Account.resolve_eq_ite]
    split_ifs <;> rfl
  · rw [Account.chargeback_eq_ite]
    split_ifs with h1 h2 h3 h4 <;> simp [h1]

/-- C2 witness: a locked account rejects a deposit unchanged, and the
lock flag survives a chargeback attempt. -/
theorem claim_C2_witness :
    (⟨1, 5, 5, 10, true⟩ : Account).deposit 3 =
      (Except.error (Error.AccountError lockedMsg), ⟨1, 5, 5, 10, true⟩) ∧
    ((⟨1, 5, 5, 10, true⟩ : Account).chargeback 3).2.locked = true := by
  have h := claim_C2 (⟨1, 5, 5, 10, true⟩ : Account) 3
  refine ⟨(h.1 rfl).1, ?_⟩
  exact (h.2.2.2.2.2).mpr (Or.inl rfl)

/-- C3: every public account operation is atomic — whenever it returns a
failure the returned account state is exactly the input state, including
when the second of the two checked arithmetic operations fails. -/
theorem claim_C3 (a : Account) (x : Decimal) (e : Error) (a' : Account) :
    (a.deposit x = (Except.error e, a') → a' = a) ∧
    (a.withdrawal x = (Except.error e, a') → a' = a) ∧
    (a.dispute x = (Except.error e, a') → a' = a) ∧
    (a.resolve x = (Except.error e, a') → a' = a) ∧
    (a.chargeback x = (Except.error e, a') → a' = a) := by
  refine ⟨?_, ?_, ?_, ?_, ?_⟩
  · rw [Account.deposit_eq_ite]
    split_ifs <;> intro h <;> simp only [Prod.mk.injEq] at h <;> simp_all
  · rw [Account.withdrawal_eq_ite]
    split_ifs <;> intro h <;> simp only [Prod.mk.injEq] at h <;> simp_all
  · rw [Account.dispute_eq_ite]
    split_ifs <;> intro h <;> simp only [Prod.mk.injEq] at h <;> simp_all
  · rw [Account.resolve_eq_ite]
    split_ifs <;> intro h <;> simp only [Prod.mk.injEq] at h <;> simp_all
  · rw [Account.chargeback_eq_ite]
    split_ifs <;> intro h <;> simp only [Prod.mk.injEq] at h <;> simp_all

/-- C3 witness: a withdrawal that fails for insufficient funds leaves the
account exactly as it was. -/
theorem claim_C3_witness : (⟨1, 50, 0, 50, false⟩ : Account) = ⟨1, 50, 0, 50, false⟩ := by
  apply (claim_C3 (⟨1, 50, 0, 50, false⟩ : Account) 60
    (Error.AccountError insufficientWithdrawalMsg) (⟨1, 50, 0, 50, false⟩ : Account)).2.1
  rw [Account.withdrawal_eq_ite]
  norm_num

/-- C1 witness: after a single 100-unit deposit into a fresh engine the
reached account satisfies the balance invariant. -/
theorem claim_C1_witness :
    (100 : ℚ) = 100 + 0 ∧ (0 : ℚ) ≤ 100 ∧ (0 : ℚ) ≤ 0 := by
  have h : (PaymentsEngine.new.processAll
      [⟨TransactionType.Deposit, 1, 1, some 100⟩]).accounts 1 =
      some ⟨1, 100, 0, 100, false⟩ := by
    show (PaymentsEngine.new.process_tx ⟨TransactionType.Deposit, 1, 1, some 100⟩).2.accounts 1 =
      some ⟨1, 100, 0, 100, false⟩
    simp only [PaymentsEngine.process_tx, PaymentsEngine.process_deposit, PaymentsEngine.new,
      TxRecord.tryFrom, Option.getD, Account.deposit_eq_ite, Account.new]
    norm_num [Dmax, upd]
  exact claim_C1 [⟨TransactionType.Deposit, 1, 1, some 100⟩] 1 ⟨1, 100, 0, 100, false⟩ h

/-- C7: every balance-field addition/subtraction in every account operation
is checked — whenever the guards up to that point pass and the exact
result lies outside the representable range, the operation returns the
explicit `Overflow`/`Underflow` transaction error and the account is
unchanged. -/
theorem claim_C7 (a : Account) (x : Decimal) :
    (a.locked = false → ¬x < 0 →
      (¬(-Dmax ≤ a.available + x ∧ a.available + x ≤ Dmax) ∨
        ¬(-Dmax ≤ a.total + x ∧ a.total + x ≤ Dmax)) →
      a.deposit x = (Except.error (Error.TransactionError depositOverflowMsg), a)) ∧
    (a.locked = false → ¬x < 0 → ¬(a.available < x ∨ a.total < x) →
      (¬(-Dmax ≤ a.available - x ∧ a.available - x ≤ Dmax) ∨
        ¬(-Dmax ≤ a.total - x ∧ a.total - x ≤ Dmax)) →
      a.withdrawal x = (Except.error (Error.TransactionError withdrawalUnderflowMsg), a)) ∧
    (a.locked = false → ¬a.available < x →
      (¬(-Dmax ≤ a.available - x ∧ a.available - x ≤ Dmax) →
        a.dispute x = (Except.error (Error.TransactionError disputeUnderflowMsg), a)) ∧
      ((-Dmax ≤ a.available - x ∧ a.available - x ≤ Dmax) →
        ¬(-Dmax ≤ a.held + x ∧ a.held + x ≤ Dmax) →
        a.dispute x = (Except.error (Error.TransactionError disputeOverflowMsg), a))) ∧
    (a.locked = false → ¬a.held < x →
      (¬(-Dmax ≤ a.held - x ∧ a.held - x ≤ Dmax) →
        a.resolve x = (Except.error (Error.TransactionError resolveUnderflowMsg), a)) ∧
      ((-Dmax ≤ a.held - x ∧ a.held - x ≤ Dmax) →
        ¬(-Dmax ≤ a.available + x ∧ a.available + x ≤ Dmax) →
        a.resolve x = (Except.error (Error.TransactionError resolveOverflowMsg), a))) ∧
    (a.locked = false → ¬(a.held < x ∨ a.total < x) →
      (¬(-Dmax ≤ a.held - x ∧ a.held - x ≤ Dmax) ∨
        ¬(-Dmax ≤ a.total - x ∧ a.total - x ≤ Dmax)) →
      a.chargeback x = (Except.error (Error.TransactionError chargebackUnderflowMsg), a)) := by
  have hbool : ∀ b : Bool, b = false → ¬(b = true) := by
    intro b hb
    rw [hb]
    simp
  refine ⟨?_, ?_, ?_, ?_, ?_⟩
  · intro hl hn hover
    rw [Account.deposit_eq_ite, if_neg (hbool _ hl), if_neg hn]
    rcases hover with h1 | h2
    · rw [if_neg h1]
    · by_cases h1 : -Dmax ≤ a.available + x ∧ a.available + x ≤ Dmax
      · rw [if_pos h1, if_neg h2]
      · rw [if_neg h1]
  · intro hl hn hs hover
    rw [Account.withdrawal_eq_ite, if_neg (hbool _ hl), if_neg hn, if_neg hs]
    rcases hover with h1 | h2
    · rw [if_neg h1]
    · by_cases h1 : -Dmax ≤ a.available - x ∧ a.available - x ≤ Dmax
      · rw [if_pos h1, if_neg h2]
      · rw [if_neg h1]
  · intro hl hs
    constructor
    · intro h1
      rw [Account.dispute_eq_ite, if_neg (hbool _ hl), if_neg hs, if_neg h1]
    · intro h1 h2
      rw [Account.dispute_eq_ite, if_neg (hbool _ hl), if_neg hs, if_pos h1, if_neg h2]
  · intro hl hs
    constructor
    · intro h1
      rw [Account.resolve_eq_ite, if_neg (hbool _ hl), if_neg hs, if_neg h1]
    · intro h1 h2
      rw [Account.resolve_eq_ite, if_neg (hbool _ hl), if_neg hs, if_pos h1, if_neg h2]
  · intro hl hs hover
    rw [Account.chargeback_eq_ite, if_neg (hbool _ hl), if_neg hs]
    rcases hover with h1 | h2
    · rw [if_neg h1]
    · by_cases h1 : -Dmax ≤ a.held - x ∧ a.held - x ≤ Dmax
      · rw [if_pos h1, if_neg h2]
      · rw [if_neg h1]

/-- C7 witness: depositing 1 into an account already holding `Decimal::MAX`
fails with the overflow error and leaves the account unchanged. -/
theorem claim_C7_witness :
    (⟨1, Dmax, 0, Dmax, false⟩ : Account).deposit 1 =
      (Except.error (Error.TransactionError depositOverflowMsg), ⟨1, Dmax, 0, Dmax, false⟩) := by
  apply (claim_C7 (⟨1, Dmax, 0, Dmax, false⟩ : Account) 1).1 rfl (by norm_num)
  left
  norm_num [Dmax]

/-- C8: if `deposit(amt)` succeeds and the immediately following
`withdrawal(amt)` succeeds, `available` and `total` return exactly to
their pre-deposit values. -/
theorem claim_C8 (a : Account) (x : Decimal) (u v : Unit) (a₁ a₂ : Account)
    (h1 : a.deposit x = (Except.ok u, a₁)) (h2 : a₁.withdrawal x = (Except.ok v, a₂)) :
    a₂.available = a.available ∧ a₂.total = a.total := by
  rw [Account.deposit_eq_ite] at h1
  split_ifs at h1 <;> try exact Except.noConfusion (congrArg Prod.fst h1)
  rw [Account.withdrawal_eq_ite] at h2
  split_ifs at h2 <;> try exact Except.noConfusion (congrArg Prod.fst h2)
  have e1 : { a with available := a.available + x, total := a.total + x } = a₁ :=
    congrArg Prod.snd h1
  have e2 : { a₁ with available := a₁.available - x, total := a₁.total - x } = a₂ :=
    congrArg Prod.snd h2
  rw [← e2, ← e1]
  constructor
  · show a.available + x - x = a.available
    ring
  · show a.total + x - x = a.total
    ring

/-- C8 witness: deposit 5 then withdraw 5 on a fresh account restores the
zero balances. -/
theorem claim_C8_witness : (0 : ℚ) = 0 ∧ (0 : ℚ) = 0 := by
  have h1 : (Account.new 1).deposit 5 = (Except.ok (), ⟨1, 5, 0, 5, false⟩) := by
    rw [Account.deposit_eq_ite]
    norm_num [Account.new, Dmax]
  have h2 : (⟨1, 5, 0, 5, false⟩ : Account).withdrawal 5 =
      (Except.ok (), ⟨1, 0, 0, 0, false⟩) := by
    rw [Account.withdrawal_eq_ite]
    norm_num [Dmax]
  exact claim_C8 (Account.new 1) 5 () () ⟨1, 5, 0, 5, false⟩ ⟨1, 0, 0, 0, false⟩ h1 h2

/-- C9: only deposit and withdrawal validate the sign of the amount (each
rejects a negative amount with the `NegativeAmount` error once the lock
gate has passed); the dispute/resolve/chargeback validators perform no
sign check — they succeed exactly when the sufficiency condition holds
(`available ≥ amount`, `held ≥ amount`, and `held ≥ amount ∧ total ≥ amount`
respectively). -/
theorem claim_C9 (a : Account) (x : Decimal) :
    (x < 0 → a.locked = false →
      a.deposit x = (Except.error (Error.TransactionError negAmountMsg), a) ∧
      a.withdrawal x = (Except.error (Error.TransactionError negAmountMsg), a)) ∧
    (a.validate_dispute_amount x = Except.ok () ↔ x ≤ a.available) ∧
    (a.validate_resolve_amount x = Except.ok () ↔ x ≤ a.held) ∧
    (a.validate_chargeback_amount x = Except.ok () ↔ x ≤ a.held ∧ x ≤ a.total) := by
  have hbool : ∀ b : Bool, b = false → ¬(b = true) := by
    intro b hb
    rw [hb]
    simp
  refine ⟨fun hn hl => ⟨?_, ?_⟩, ?_, ?_, ?_⟩
  · rw [Account.deposit_eq_ite, if_neg (hbool _ hl), if_pos hn]
  · rw [Account.withdrawal_eq_ite, if_neg (hbool _ hl), if_pos hn]
  · unfold Account.validate_dispute_amount
    split_ifs with h
    · constructor
      · intro habs
        cases habs
      · intro hle
        exact absurd hle (not_le.mpr h)
    · simp [not_lt.mp h]
  · unfold Account.validate_resolve_amount
    split_ifs with h
    · constructor
      · intro habs
        cases habs
      · intro hle
        exact absurd hle (not_le.mpr h)
    · simp [not_lt.mp h]
  · unfold Account.validate_chargeback_amount
    split_ifs with h
    · constructor
      · intro habs
        cases habs
      · intro hle
        rcases h with h | h
        · exact absurd hle.1 (not_le.mpr h)
        · exact absurd hle.2 (not_le.mpr h)
    · push_neg at h
      simp [h.1, h.2]

/-- C9 witness: a deposit of −1 on a fresh account is rejected as negative,
while the dispute validator accepts −1 (no sign check, only sufficiency). -/
theorem claim_C9_witness :
    (Account.new 1).deposit (-1) =
      (Except.error (Error.TransactionError negAmountMsg), Account.new 1) ∧
    ((Account.new 1).validate_dispute_amount (-1) = Except.ok () ↔ (-1 : ℚ) ≤ 0) := by
  have h := claim_C9 (Account.new 1) (-1)
  exact ⟨(h.1 (by norm_num) rfl).1, h.2.1⟩

/-! ### Engine-level frame lemmas -/

theorem process_dispute_transactions (s : PaymentsEngine) (tx : Transaction) :
    (s.process_dispute tx).2.transactions = s.transactions := by
  unfold PaymentsEngine.process_dispute
  split
  · rfl
  · rename_i tx_info heq₁
    split
    · rfl
    · rcases hop : ((s.accounts tx.account_id).getD (Account.new tx.account_id)).dispute
        tx_info.amount with ⟨res, acct₂⟩
      rfl

theorem process_resolve_transactions (s : PaymentsEngine) (tx : Transaction) :
    (s.process_resolve tx).2.transactions = s.transactions := by
  unfold PaymentsEngine.process_resolve
  split
  · rfl
  · rename_i tx_info heq₁
    split
    · rfl
    · rcases hop : ((s.accounts tx.account_id).getD (Account.new tx.account_id)).resolve
        tx_info.amount with ⟨res, acct₂⟩
      rfl

theorem process_chargeback_transactions (s : PaymentsEngine) (tx : Transaction) :
    (s.process_chargeback tx).2.transactions = s.transactions := by
  unfold PaymentsEngine.process_chargeback
  split
  · rfl
  · rename_i tx_info heq₁
    split
    · rfl
    · rcases hop : ((s.accounts tx.account_id).getD (Account.new tx.account_id)).chargeback
        tx_info.amount with ⟨res, acct₂⟩
      rfl

theorem process_dispute_not_found (s : PaymentsEngine) (tx : Transaction)
    (h : s.transactions tx.tx_id = none) :
    s.process_dispute tx =
      (Except.ok (), { s with accounts := upd s.accounts tx.account_id ((s.accounts tx.account_id).getD (Account.new tx.account_id)) }) := by
  unfold PaymentsEngine.process_dispute
  split
  · rfl
  · rename_i tx_info heq₁
    rw [h] at heq₁
    cases heq₁

theorem process_resolve_not_found (s : PaymentsEngine) (tx : Transaction)
    (h : s.transactions tx.tx_id = none) :
    s.process_resolve tx =
      (Except.ok (), { s with accounts := upd s.accounts tx.account_id ((s.accounts tx.account_id).getD (Account.new tx.account_id)) }) := by
  unfold PaymentsEngine.process_resolve
  split
  · rfl
  · rename_i tx_info heq₁
    rw [h] at heq₁
    cases heq₁

theorem process_chargeback_not_found (s : PaymentsEngine) (tx : Transaction)
    (h : s.transactions tx.tx_id = none) :
    s.process_chargeback tx =
      (Except.ok (), { s with accounts := upd s.accounts tx.account_id ((s.accounts tx.account_id).getD (Account.new tx.account_id)) }) := by
  unfold PaymentsEngine.process_chargeback
  split
  · rfl
  · rename_i tx_info heq₁
    rw [h] at heq₁
    cases heq₁

theorem process_dispute_validate_err (s : PaymentsEngine) (tx : Transaction)
    (rec : TxRecord) (e : Error) (hlook : s.transactions tx.tx_id = some rec)
    (hval : ((s.accounts tx.account_id).getD
      (Account.new tx.account_id)).validate_tx_account_id rec.account_id = Except.error e) :
    s.process_dispute tx =
      (Except.error e, { s with accounts := upd s.accounts tx.account_id ((s.accounts tx.account_id).getD (Account.new tx.account_id)) }) := by
  unfold PaymentsEngine.process_dispute
  split
  · rename_i heq₁
    rw [hlook] at heq₁
    cases heq₁
  · rename_i tx_info heq₁
    rw [hlook] at heq₁
    cases heq₁
    split
    · rename_i e' heq₂
      rw [hval] at heq₂
      cases heq₂
      rfl
    · rename_i u heq₂
      rw [hval] at heq₂
      cases heq₂

theorem process_resolve_validate_err (s : PaymentsEngine) (tx : Transaction)
    (rec : TxRecord) (e : Error) (hlook : s.transactions tx.tx_id = some rec)
    (hval : ((s.accounts tx.account_id).getD
      (Account.new tx.account_id)).validate_tx_account_id rec.account_id = Except.error e) :
    s.process_resolve tx =
      (Except.error e, { s with accounts := upd s.accounts tx.account_id ((s.accounts tx.account_id).getD (Account.new tx.account_id)) }) := by
  unfold PaymentsEngine.process_resolve
  split
  · rename_i heq₁
    rw [hlook] at heq₁
    cases heq₁
  · rename_i tx_info heq₁
    rw [hlook] at heq₁
    cases heq₁
    split
    · rename_i e' heq₂
      rw [hval] at heq₂
      cases heq₂
      rfl
    · rename_i u heq₂
      rw [hval] at heq₂
      cases heq₂

theorem process_chargeback_validate_err (s : PaymentsEngine) (tx : Transaction)
    (rec : TxRecord) (e : Error) (hlook : s.transactions tx.tx_id = some rec)
    (hval : ((s.accounts tx.account_id).getD
      (Account.new tx.account_id)).validate_tx_account_id rec.account_id = Except.error e) :
    s.process_chargeback tx =
      (Except.error e, { s with accounts := upd s.accounts tx.account_id ((s.accounts tx.account_id).getD (Account.new tx.account_id)) }) := by
  unfold PaymentsEngine.process_chargeback
  split
  · rename_i heq₁
    rw [hlook] at heq₁
    cases heq₁
  · rename_i tx_info heq₁
    rw [hlook] at heq₁
    cases heq₁
    split
    · rename_i e' heq₂
      rw [hval] at heq₂
      cases heq₂
      rfl
    · rename_i u heq₂
      rw [hval] at heq₂
      cases heq₂

/-- C4: the chargeable-record map gains (or overwrites) an entry keyed by
`tx_id` if and only if the transaction is a Deposit or Withdrawal whose
account operation succeeded; when the record conversion or the account
operation fails the map is unchanged, and dispute/resolve/chargeback
transactions never modify the map. -/
theorem claim_C4 (s : PaymentsEngine) (tx : Transaction) :
    (tx.tx_type = TransactionType.Deposit →
      (tx.amount = none →
        (s.process_tx tx).2.transactions = s.transactions ∧
        (s.process_tx tx).1 = Except.error (Error.TransactionError invalidAmountMsg)) ∧
      (∀ x, tx.amount = some x →
        ((((s.accounts tx.account_id).getD (Account.new tx.account_id)).deposit x).1 =
            Except.ok () →
          (s.process_tx tx).2.transactions =
            upd s.transactions tx.tx_id ⟨tx.tx_type, tx.account_id, x⟩ ∧
          (s.process_tx tx).1 = Except.ok ()) ∧
        ((((s.accounts tx.account_id).getD (Account.new tx.account_id)).deposit x).1 ≠
            Except.ok () →
          (s.process_tx tx).2.transactions = s.transactions ∧
          (s.process_tx tx).1 =
            (((s.accounts tx.account_id).getD (Account.new tx.account_id)).deposit x).1))) ∧
    (tx.tx_type = TransactionType.Withdrawal →
      (tx.amount = none →
        (s.process_tx tx).2.transactions = s.transactions ∧
        (s.process_tx tx).1 = Except.error (Error.TransactionError invalidAmountMsg)) ∧
      (∀ x, tx.amount = some x →
        ((((s.accounts tx.account_id).getD (Account.new tx.account_id)).withdrawal x).1 =
            Except.ok () →
          (s.process_tx tx).2.transactions =
            upd s.transactions tx.tx_id ⟨tx.tx_type, tx.account_id, x⟩ ∧
          (s.process_tx tx).1 = Except.ok ()) ∧
        ((((s.accounts tx.account_id).getD (Account.new tx.account_id)).withdrawal x).1 ≠
            Except.ok () →
          (s.process_tx tx).2.transactions = s.transactions ∧
          (s.process_tx tx).1 =
            (((s.accounts tx.account_id).getD (Account.new tx.account_id)).withdrawal x).1))) ∧
    ((tx.tx_type = TransactionType.Dispute ∨ tx.tx_type = TransactionType.Resolve ∨
        tx.tx_type = TransactionType.Chargeback) →
      (s.process_tx tx).2.transactions = s.transactions) := by
  obtain ⟨ty, cid, tid, amt⟩ := tx
  refine ⟨?_, ?_, ?_⟩
  · intro hty
    subst hty
    constructor
    · intro hamt
      subst hamt
      exact ⟨rfl, rfl⟩
    · intro x hamt
      subst hamt
      rcases hdep : ((s.accounts cid).getD (Account.new cid)).deposit x with ⟨res, acct₂⟩
      simp only [PaymentsEngine.process_tx, PaymentsEngine.process_deposit, TxRecord.tryFrom,
        hdep]
      cases res with
      | ok u =>
        cases u
        exact ⟨fun _ => ⟨rfl, rfl⟩, fun hne => absurd rfl hne⟩
      | error e =>
        constructor
        · intro habs
          cases habs
        · intro _
          exact ⟨rfl, rfl⟩
  · intro hty
    subst hty
    constructor
    · intro hamt
      subst hamt
      exact ⟨rfl, rfl⟩
    · intro x hamt
      subst hamt
      rcases hdep : ((s.accounts cid).getD (Account.new cid)).withdrawal x with ⟨res, acct₂⟩
      simp only [PaymentsEngine.process_tx, PaymentsEngine.process_withdrawal, TxRecord.tryFrom,
        hdep]
      cases res with
      | ok u =>
        cases u
        exact ⟨fun _ => ⟨rfl, rfl⟩, fun hne => absurd rfl hne⟩
      | error e =>
        constructor
        · intro habs
          cases habs
        · intro _
          exact ⟨rfl, rfl⟩
  · intro hty
    rcases hty with hty | hty | hty <;> subst hty
    · exact process_dispute_transactions s ⟨TransactionType.Dispute, cid, tid, amt⟩
    · exact process_resolve_transactions s ⟨TransactionType.Resolve, cid, tid, amt⟩
    · exact process_chargeback_transactions s ⟨TransactionType.Chargeback, cid, tid, amt⟩

/-- C4 witness: a successful deposit on a fresh engine stores its record
and reports success. -/
theorem claim_C4_witness :
    (PaymentsEngine.new.process_tx ⟨TransactionType.Deposit, 1, 7, some 100⟩).2.transactions =
      upd PaymentsEngine.new.transactions 7 ⟨TransactionType.Deposit, 1, 100⟩ ∧
    (PaymentsEngine.new.process_tx ⟨TransactionType.Deposit, 1, 7, some 100⟩).1 =
      Except.ok () := by
  apply (((claim_C4 PaymentsEngine.new ⟨TransactionType.Deposit, 1, 7, some 100⟩).1 rfl).2
    100 rfl).1
  rw [Account.deposit_eq_ite]
  norm_num [PaymentsEngine.new, Account.new, Dmax]

/-- C5 counterexample: a dispute citing an unknown `tx_id` on a fresh engine
returns success but does change the engine state — the engine creates the
referenced account before looking up the record, so the account map gains a
fresh account. -/
theorem claim_C5_counterexample :
    (PaymentsEngine.new.process_tx ⟨TransactionType.Dispute, 1, 1, none⟩).1 = Except.ok () ∧
    (PaymentsEngine.new.process_tx ⟨TransactionType.Dispute, 1, 1, none⟩).2.accounts ≠
      PaymentsEngine.new.accounts := by
  constructor
  · rfl
  · intro h
    have h1 := congrFun h 1
    simp [PaymentsEngine.process_tx, PaymentsEngine.process_dispute, PaymentsEngine.new,
      upd] at h1

/-- C5 (amended): a dispute/resolve/chargeback whose `tx_id` is not in the
chargeable-record map returns success, leaves the record map and every
other account unchanged, and its only possible effect is the creation of a
fresh default account for `tx.account_id` (which keeps its prior state if
it already existed). -/
theorem claim_C5 (s : PaymentsEngine) (tx : Transaction)
    (hty : tx.tx_type = TransactionType.Dispute ∨ tx.tx_type = TransactionType.Resolve ∨
      tx.tx_type = TransactionType.Chargeback)
    (h : s.transactions tx.tx_id = none) :
    (s.process_tx tx).1 = Except.ok () ∧
    (s.process_tx tx).2.transactions = s.transactions ∧
    (∀ c, c ≠ tx.account_id → (s.process_tx tx).2.accounts c = s.accounts c) ∧
    (s.process_tx tx).2.accounts tx.account_id =
      some ((s.accounts tx.account_id).getD (Account.new tx.account_id)) := by
  have hstep : s.process_tx tx =
      (Except.ok (), { s with accounts := upd s.accounts tx.account_id ((s.accounts tx.account_id).getD (Account.new tx.account_id)) }) := by
    rcases hty with hty | hty | hty <;>
      rw [PaymentsEngine.process_tx, hty] <;>
      first
        | exact process_dispute_not_found s tx h
        | exact process_resolve_not_found s tx h
        | exact process_chargeback_not_found s tx h
  rw [hstep]
  refine ⟨rfl, rfl, ?_, ?_⟩
  · intro c hc
    show upd s.accounts tx.account_id _ c = s.accounts c
    rw [upd_apply, if_neg hc]
  · show upd s.accounts tx.account_id _ tx.account_id = _
    rw [upd_apply, if_pos rfl]

/-- C5 witness: instantiated on a fresh engine and an unknown resolve. -/
theorem claim_C5_witness :
    (PaymentsEngine.new.process_tx ⟨TransactionType.Resolve, 2, 9, none⟩).1 = Except.ok () ∧
    (PaymentsEngine.new.process_tx ⟨TransactionType.Resolve, 2, 9, none⟩).2.transactions =
      PaymentsEngine.new.transactions ∧
    (∀ c, c ≠ 2 → (PaymentsEngine.new.process_tx
      ⟨TransactionType.Resolve, 2, 9, none⟩).2.accounts c = PaymentsEngine.new.accounts c) ∧
    (PaymentsEngine.new.process_tx ⟨TransactionType.Resolve, 2, 9, none⟩).2.accounts 2 =
      some ((PaymentsEngine.new.accounts 2).getD (Account.new 2)) :=
  claim_C5 PaymentsEngine.new ⟨TransactionType.Resolve, 2, 9, none⟩ (Or.inr (Or.inl rfl)) rfl

/-- C6: a dispute (or resolve/chargeback) addressed to account B that
references a stored record owned by a different account A fails with the
owner-mismatch transaction error, and every account that existed before
(in particular both A's and B's) keeps exactly its prior state; the record
map is unchanged too.  The hypothesis that stored accounts are keyed by
their own id is the engine invariant established by `processAll_inv`. -/
theorem claim_C6 (s : PaymentsEngine) (tx : Transaction) (rec : TxRecord)
    (hty : tx.tx_type = TransactionType.Dispute ∨ tx.tx_type = TransactionType.Resolve ∨
      tx.tx_type = TransactionType.Chargeback)
    (hlook : s.transactions tx.tx_id = some rec)
    (hmm : rec.account_id ≠ tx.account_id)
    (hkey : ∀ b, s.accounts tx.account_id = some b → b.id = tx.account_id) :
    (s.process_tx tx).1 = Except.error (Error.TransactionError ownerMismatchMsg) ∧
    (∀ c a₀, s.accounts c = some a₀ → (s.process_tx tx).2.accounts c = some a₀) ∧
    (s.process_tx tx).2.transactions = s.transactions := by
  have hid : ((s.accounts tx.account_id).getD (Account.new tx.account_id)).id =
      tx.account_id := by
    cases hacc : s.accounts tx.account_id with
    | none => rfl
    | some b => exact hkey b hacc
  have hval : ((s.accounts tx.account_id).getD
      (Account.new tx.account_id)).validate_tx_account_id rec.account_id =
      Except.error (Error.TransactionError ownerMismatchMsg) := by
    unfold Account.validate_tx_account_id
    rw [if_pos]
    rw [hid]
    exact Ne.symm hmm
  have hstep : s.process_tx tx =
      (Except.error (Error.TransactionError ownerMismatchMsg),
        { s with accounts := upd s.accounts tx.account_id ((s.accounts tx.account_id).getD (Account.new tx.account_id)) }) := by
    rcases hty with hty | hty | hty <;>
      rw [PaymentsEngine.process_tx, hty] <;>
      first
        | exact process_dispute_validate_err s tx rec _ hlook hval
        | exact process_resolve_validate_err s tx rec _ hlook hval
        | exact process_chargeback_validate_err s tx rec _ hlook hval
  rw [hstep]
  refine ⟨rfl, ?_, rfl⟩
  intro c a₀ hacc
  show upd s.accounts tx.account_id _ c = some a₀
  rw [upd_apply]
  by_cases hc : c = tx.account_id
  · rw [if_pos hc]
    subst hc
    rw [hacc]
    rfl
  · rw [if_neg hc]
    exact hacc

/-- C6 witness: account 1 owns record 5; a dispute of record 5 addressed to
account 2 fails with the owner-mismatch error and leaves account 1 intact. -/
theorem claim_C6_witness :
    let s : PaymentsEngine := ⟨upd (fun _ => none) 1 ⟨1, 100, 0, 100, false⟩,
      upd (fun _ => none) 5 ⟨TransactionType.Deposit, 1, 100⟩⟩
    (s.process_tx ⟨TransactionType.Dispute, 2, 5, none⟩).1 =
      Except.error (Error.TransactionError ownerMismatchMsg) ∧
    (s.process_tx ⟨TransactionType.Dispute, 2, 5, none⟩).2.accounts 1 =
      some ⟨1, 100, 0, 100, false⟩ := by
  intro s
  have h := claim_C6 s ⟨TransactionType.Dispute, 2, 5, none⟩
    ⟨TransactionType.Deposit, 1, 100⟩ (Or.inl rfl)
    (by rw [show s.transactions 5 = some ⟨TransactionType.Deposit, 1, 100⟩ from rfl])
    (by norm_num)
    (by intro b hb
        rw [show s.accounts 2 = none from rfl] at hb
        cases hb)
  refine ⟨h.1, ?_⟩
  apply h.2.1 1 ⟨1, 100, 0, 100, false⟩
  rw [show s.accounts 1 = some ⟨1, 100, 0, 100, false⟩ from rfl]

/-- Field-wise equality of accounts. -/
theorem Account.eq_of_fields {a b : Account} (h1 : a.id = b.id)
    (h2 : a.available = b.available) (h3 : a.held = b.held) (h4 : a.total = b.total)
    (h5 : a.locked = b.locked) : a = b := by
  cases a
  cases b
  simp only [Account.mk.injEq]
  exact ⟨h1, h2, h3, h4, h5⟩

theorem dmax_nonneg : (0 : ℚ) ≤ Dmax := by norm_num [Dmax]

/-- A zero deposit on a valid unlocked account succeeds and changes
nothing. -/
theorem Account.deposit_zero_eq (a : Account) (hv : a.Valid) (hl : a.locked = false) :
    a.deposit 0 = (Except.ok (), a) := by
  obtain ⟨ht, hav, hh, hd⟩ := hv
  have hD := dmax_nonneg
  rw [Account.deposit_eq_ite, if_neg (by rw [hl]; simp), if_neg (lt_irrefl (0 : ℚ)),
    if_pos ⟨by rw [add_zero]; linarith, by rw [add_zero]; linarith⟩,
    if_pos ⟨by rw [add_zero]; linarith, by rw [add_zero]; linarith⟩]
  rw [Account.eq_of_fields (a := { a with available := a.available + 0, total := a.total + 0 })
    (b := a) rfl (add_zero _) rfl (add_zero _) rfl]

/-- A zero withdrawal on a valid unlocked account succeeds and changes
nothing. -/
theorem Account.withdrawal_zero_eq (a : Account) (hv : a.Valid) (hl : a.locked = false) :
    a.withdrawal 0 = (Except.ok (), a) := by
  obtain ⟨ht, hav, hh, hd⟩ := hv
  have hD := dmax_nonneg
  rw [Account.withdrawal_eq_ite, if_neg (by rw [hl]; simp), if_neg (lt_irrefl (0 : ℚ)),
    if_neg (by push_neg; exact ⟨hav, by linarith⟩),
    if_pos ⟨by rw [sub_zero]; linarith, by rw [sub_zero]; linarith⟩,
    if_pos ⟨by rw [sub_zero]; linarith, by rw [sub_zero]; linarith⟩]
  rw [Account.eq_of_fields (a := { a with available := a.available - 0, total := a.total - 0 })
    (b := a) rfl (sub_zero _) rfl (sub_zero _) rfl]

/-- A zero dispute on a valid unlocked account succeeds and changes
nothing. -/
theorem Account.dispute_zero_eq (a : Account) (hv : a.Valid) (hl : a.locked = false) :
    a.dispute 0 = (Except.ok (), a) := by
  obtain ⟨ht, hav, hh, hd⟩ := hv
  have hD := dmax_nonneg
  rw [Account.dispute_eq_ite, if_neg (by rw [hl]; simp), if_neg (not_lt.mpr hav),
    if_pos ⟨by rw [sub_zero]; linarith, by rw [sub_zero]; linarith⟩,
    if_pos ⟨by rw [add_zero]; linarith, by rw [add_zero]; linarith⟩]
  rw [Account.eq_of_fields (a := { a with available := a.available - 0, held := a.held + 0 })
    (b := a) rfl (sub_zero _) (add_zero _) rfl rfl]

/-- C10: on a valid unlocked account, `deposit(0)` and `withdrawal(0)` both
succeed (the negativity check only rejects strictly negative amounts) and
leave every field unchanged; a zero-amount deposit processed by the engine
additionally stores a `ChargeableRecord` with amount 0 that a later dispute
of the same `tx_id` can successfully reference. -/
theorem claim_C10 (a : Account) (s : PaymentsEngine) (c t : Nat)
    (hv : a.Valid) (hl : a.locked = false) (hid : a.id = c) (hacc : s.accounts c = some a) :
    a.deposit 0 = (Except.ok (), a) ∧
    a.withdrawal 0 = (Except.ok (), a) ∧
    (s.process_tx ⟨TransactionType.Deposit, c, t, some 0⟩).1 = Except.ok () ∧
    (s.process_tx ⟨TransactionType.Deposit, c, t, some 0⟩).2.accounts c = some a ∧
    (s.process_tx ⟨TransactionType.Deposit, c, t, some 0⟩).2.transactions t =
      some ⟨TransactionType.Deposit, c, 0⟩ ∧
    ((s.process_tx ⟨TransactionType.Deposit, c, t, some 0⟩).2.process_tx
      ⟨TransactionType.Dispute, c, t, none⟩).1 = Except.ok () := by
  have hdz := Account.deposit_zero_eq a hv hl
  have hwz := Account.withdrawal_zero_eq a hv hl
  have hdispz := Account.dispute_zero_eq a hv hl
  have hstep : s.process_tx ⟨TransactionType.Deposit, c, t, some 0⟩ =
      (Except.ok (), ⟨upd s.accounts c a, upd s.transactions t
        ⟨TransactionType.Deposit, c, 0⟩⟩) := by
    simp only [PaymentsEngine.process_tx, PaymentsEngine.process_deposit, TxRecord.tryFrom,
      hacc, Option.getD, hdz]
  refine ⟨hdz, hwz, ?_, ?_, ?_, ?_⟩
  · rw [hstep]
  · rw [hstep]
    show upd s.accounts c a c = some a
    rw [upd_apply, if_pos rfl]
  · rw [hstep]
    show upd s.transactions t ⟨TransactionType.Deposit, c, 0⟩ t = _
    rw [upd_apply, if_pos rfl]
  · rw [hstep]
    have hlook : upd s.transactions t (⟨TransactionType.Deposit, c, 0⟩ : TxRecord) t =
        some ⟨TransactionType.Deposit, c, 0⟩ := by
      rw [upd_apply, if_pos rfl]
    have hacc₂ : upd s.accounts c a c = some a := by
      rw [upd_apply, if_pos rfl]
    have hok : Account.validate_tx_account_id a c = Except.ok () := by
      unfold Account.validate_tx_account_id
      rw [if_neg]
      rw [hid]
      exact fun hne => hne rfl
    simp only [PaymentsEngine.process_tx, PaymentsEngine.process_dispute, hlook, hacc₂,
      Option.getD, hok, hdispz]

/-- C10 witness: instantiated with a concrete funded account. -/
theorem claim_C10_witness :
    let a : Account := ⟨1, 100, 0, 100, false⟩
    let s : PaymentsEngine := ⟨upd (fun _ => none) 1 a, fun _ => none⟩
    a.deposit 0 = (Except.ok (), a) ∧
    a.withdrawal 0 = (Except.ok (), a) ∧
    (s.process_tx ⟨TransactionType.Deposit, 1, 9, some 0⟩).1 = Except.ok () ∧
    (s.process_tx ⟨TransactionType.Deposit, 1, 9, some 0⟩).2.accounts 1 = some a ∧
    (s.process_tx ⟨TransactionType.Deposit, 1, 9, some 0⟩).2.transactions 9 =
      some ⟨TransactionType.Deposit, 1, 0⟩ ∧
    ((s.process_tx ⟨TransactionType.Deposit, 1, 9, some 0⟩).2.process_tx
      ⟨TransactionType.Dispute, 1, 9, none⟩).1 = Except.ok () := by
  intro a s
  apply claim_C10 a s 1 9
  · exact ⟨by norm_num, by norm_num, le_refl 0, by norm_num [Dmax]⟩
  · rfl
  · rfl
  · rw [show s.accounts 1 = some a from rfl]

end Payments
